import Mathlib

/-!
Shallow embedding of `src/app.py` (AI Mask Detection & Alert System).

The program is a single-pass pipeline: face detection (OpenCV Haar cascade),
mask classification (Groq vision model returning JSON), violation decision,
and dual-channel alert dispatch (SMTP email + Twilio WhatsApp).

External effects (the cascade detector, the Groq API call together with
`json.loads`, and the two alert transports) are modelled as environment
values describing what the external world does on this invocation; the
program logic that consumes those outcomes is translated line by line from
the source.  Each Streamlit output call (`st.error`, `st.warning`,
`st.image`, `st.toast`, `col1.success`, `col1.error`, `col2.info`) and each
outbound call (classifier request, sink function entry) is recorded as an
event, so the theorems can speak about what was invoked, with which
arguments, and in which order.
-/

/-- Raw image bytes (the unmodified upload/camera buffer,
`source_img.getvalue()` in the source). -/
abbrev Bytes := List Nat

/-- One pixel: three colour channels. -/
abbrev Pixel := Nat × Nat × Nat

/-- A decoded pixel grid (rows of pixels), the `image_cv` numpy array. -/
abbrev PixelGrid := List (List Pixel)

/-- A detected face rectangle `(x, y, w, h)`, as returned by
`detectMultiScale`. -/
structure Rect where
  x : Nat
  y : Nat
  w : Nat
  h : Nat

/-- A parsed JSON value, the possible results of `json.loads`. -/
inductive JsonVal where
  | null : JsonVal
  | bool (b : Bool) : JsonVal
  | num (n : Int) : JsonVal
  | str (s : String) : JsonVal
  | arr (xs : List JsonVal) : JsonVal
  | obj (kvs : List (String × JsonVal)) : JsonVal

/-- Python truthiness of a JSON value (`if analysis_result:` and
`if mask_detected:` in the source): `None`, `False`, `0`, `""`, `[]` and
an empty dict are falsy, everything else is truthy. -/
def JsonVal.truthy : JsonVal → Bool
  | .null => false
  | .bool b => b
  | .num n => n != 0
  | .str s => s != ""
  | .arr xs => !xs.isEmpty
  | .obj kvs => !kvs.isEmpty

/-- Last binding of a key in an association list.  `json.loads` builds a
Python dict, where a later duplicate key overwrites an earlier one, and
`dict.get` then finds that last binding. -/
def lookupLast (kvs : List (String × JsonVal)) (k : String) : Option JsonVal :=
  kvs.foldl (fun acc p => if p.1 = k then some p.2 else acc) none

/-- Python `dict.get(k, default)` on a parsed JSON object. -/
def dictGet (kvs : List (String × JsonVal)) (k : String) (dflt : JsonVal) : JsonVal :=
  (lookupLast kvs k).getD dflt

mutual

/-- Python `repr` of a JSON value, used by `str` on containers.  String
escaping inside a repr is not modelled (no string the program builds
depends on it). -/
def JsonVal.pyRepr : JsonVal → String
  | .null => "None"
  | .bool b => if b then "True" else "False"
  | .num n => toString n
  | .str s => "'" ++ s ++ "'"
  | .arr xs => "[" ++ pyReprList xs ++ "]"
  | .obj kvs => "\x7b" ++ pyReprObj kvs ++ "\x7d"

/-- Comma-separated reprs of the elements of a Python list. -/
def pyReprList : List JsonVal → String
  | [] => ""
  | [v] => JsonVal.pyRepr v
  | v :: vs => JsonVal.pyRepr v ++ ", " ++ pyReprList vs

/-- Comma-separated `'key': repr` entries of a Python dict. -/
def pyReprObj : List (String × JsonVal) → String
  | [] => ""
  | [kv] => "'" ++ kv.1 ++ "': " ++ JsonVal.pyRepr kv.2
  | kv :: kvs => "'" ++ kv.1 ++ "': " ++ JsonVal.pyRepr kv.2 ++ ", " ++ pyReprObj kvs

end

/-- Python `str` of a JSON value, as interpolated by the source's
f-strings: a string renders as itself, anything else as its repr. -/
def JsonVal.pyStr : JsonVal → String
  | .str s => s
  | .null => "None"
  | .bool b => if b then "True" else "False"
  | .num n => toString n
  | .arr xs => "[" ++ pyReprList xs ++ "]"
  | .obj kvs => "\x7b" ++ pyReprObj kvs ++ "\x7d"

/-- Everything the pipeline makes observable: operator-facing Streamlit
output and the outbound calls to external services. -/
inductive Event where
  /-- `st.error(...)`. -/
  | errorMsg (s : String) : Event
  /-- `st.warning(...)`. -/
  | warningMsg (s : String) : Event
  /-- `st.image(img, caption)`. -/
  | showImage (img : PixelGrid) (caption : String) : Event
  /-- `col1.success(...)` (mask detected). -/
  | statusSuccess (s : String) : Event
  /-- `col1.error(...)` (violation status line). -/
  | statusError (s : String) : Event
  /-- `col2.info(...)` (the AI reason line). -/
  | infoMsg (s : String) : Event
  /-- Entry into `analyze_image_for_mask` with the bytes it was handed
  (those bytes are base64-encoded into the Groq request). -/
  | classifierCalled (image_bytes : Bytes) : Event
  /-- Entry into `send_alert_email` with its arguments (the body is the
  raw Python value the caller passed). -/
  | emailSinkCalled (subject : String) (body : JsonVal) (image_bytes : Bytes) : Event
  /-- Entry into `send_whatsapp_alert` with its body string. -/
  | whatsappSinkCalled (body : String) : Event
  /-- `st.toast(...)`. -/
  | toast (s : String) : Event

/-- What the external world does when `analyze_image_for_mask` runs: either
some exception is raised before `json.loads` returns (client construction,
the API call, a non-JSON response body), or `json.loads` yields a value. -/
inductive ClassifierCall where
  /-- An exception (transport error, or `json.loads` on a non-JSON body)
  carrying its message; caught by the function's `except`. -/
  | raised (msg : String) : ClassifierCall
  /-- The response body parsed as this JSON value. -/
  | parsed (v : JsonVal) : ClassifierCall

/-- What the external world does when `detect_faces` runs. -/
inductive DetectEnv where
  /-- Detection succeeds, `detectMultiScale` returns these rectangles. -/
  | ok (faces : List Rect) : DetectEnv
  /-- The cascade asset is missing: `FileNotFoundError`. -/
  | cascadeMissing : DetectEnv
  /-- Any other exception during detection, carrying its message. -/
  | failure (msg : String) : DetectEnv

/-- Outcome of the `try` block of one alert sink: either it completes, or
some exception (auth, network, message construction) is raised inside it. -/
inductive SinkOutcome where
  | ok : SinkOutcome
  | raised (msg : String) : SinkOutcome

/-- The external world of one invocation. -/
structure Env where
  detect : DetectEnv
  classifier : ClassifierCall
  emailOutcome : SinkOutcome
  whatsappOutcome : SinkOutcome

/-- The per-invocation inputs: the raw bytes from input acquisition, their
decoded pixel grid (`image_cv`; decoding by PIL/cv2 is external), and the
sidebar alerts toggle. -/
structure PipelineInput where
  image_bytes : Bytes
  image_cv : PixelGrid
  alerts_enabled : Bool

/-- Is `(j, i)` on the (thickness-2) border that
`cv2.rectangle(img, (x, y), (x+w, y+h), color, 2)` paints? -/
def onBorder (r : Rect) (j i : Nat) : Bool :=
  (r.x ≤ j + 1 && j ≤ r.x + r.w + 1 && r.y ≤ i + 1 && i ≤ r.y + r.h + 1) &&
  ((r.x ≤ j + 1 && j ≤ r.x + 1) || (r.x + r.w ≤ j + 1 && j ≤ r.x + r.w + 1) ||
   (r.y ≤ i + 1 && i ≤ r.y + 1) || (r.y + r.h ≤ i + 1 && i ≤ r.y + r.h + 1))

/-- `cv2.rectangle(img, (x, y), (x+w, y+h), (255, 0, 0), 2)`: a new grid
with the border pixels of the rectangle set to the drawing colour. -/
def drawRect (img : PixelGrid) (r : Rect) : PixelGrid :=
  img.mapIdx fun i row => row.mapIdx fun j px =>
    if onBorder r j i then (255, 0, 0) else px

/-- The `for (x, y, w, h) in faces: cv2.rectangle(...)` loop. -/
def drawRects (img : PixelGrid) (faces : List Rect) : PixelGrid :=
  faces.foldl drawRect img

/-- Result of `detect_faces`.  `buffer` is the final contents of the
caller's `image_np` array: the source draws only on
`image_with_boxes = image_np.copy()`, so the embedding makes the state of
the input buffer after the call explicit. -/
structure DetectResult where
  events : List Event
  buffer : PixelGrid
  image_with_boxes : PixelGrid
  num_faces : Nat

/-- `detect_faces(image_np)` from `src/app.py`: run the cascade, draw one
rectangle per detection on a copy, return the annotated copy and the count;
on `FileNotFoundError` or any other exception, report via `st.error` and
return the untouched input with a count of zero. -/
def detect_faces (image_np : PixelGrid) (env : DetectEnv) : DetectResult :=
  match env with
  | .ok faces =>
    let image_with_boxes := drawRects image_np faces
    ⟨[], image_np, image_with_boxes, faces.length⟩
  | .cascadeMissing =>
    ⟨[Event.errorMsg "haarcascade_frontalface_default.xml not found. Please download it."],
     image_np, image_np, 0⟩
  | .failure e =>
    ⟨[Event.errorMsg ("Face detection error: " ++ e)], image_np, image_np, 0⟩

/-- Result of `analyze_image_for_mask`: its events and its return value
(`none` models Python `None`). -/
structure ClassifyResult where
  events : List Event
  result : Option JsonVal

/-- `analyze_image_for_mask(image_bytes)` from `src/app.py`: send the
base64-encoded bytes to the Groq model and return `json.loads` of the
response content; any exception is caught, reported via `st.error`, and
turned into `None`. -/
def analyze_image_for_mask (image_bytes : Bytes) (call : ClassifierCall) : ClassifyResult :=
  match call with
  | .raised e =>
    ⟨[Event.classifierCalled image_bytes, Event.errorMsg ("Groq API Error: " ++ e)], none⟩
  | .parsed v =>
    ⟨[Event.classifierCalled image_bytes], some v⟩

/-- `send_alert_email(subject, body, image_bytes)` from `src/app.py`:
build a multipart message with the body and a JPEG attachment and send it
over SMTP; success shows a toast, any exception in the `try` block is
caught and reported via `st.error`.  Nothing escapes the function. -/
def send_alert_email (subject : String) (body : JsonVal) (image_bytes : Bytes)
    (out : SinkOutcome) : List Event :=
  Event.emailSinkCalled subject body image_bytes ::
  match out with
  | .ok => [Event.toast "✅ Email alert sent successfully!"]
  | .raised e => [Event.errorMsg ("Failed to send email: " ++ e)]

/-- `send_whatsapp_alert(body)` from `src/app.py`: send a WhatsApp message
through Twilio; success shows a toast, any exception is caught and
reported via `st.error`.  Nothing escapes the function. -/
def send_whatsapp_alert (body : String) (out : SinkOutcome) : List Event :=
  Event.whatsappSinkCalled body ::
  match out with
  | .ok => [Event.toast "✅ WhatsApp alert sent successfully!"]
  | .raised e => [Event.errorMsg ("Failed to send WhatsApp message: " ++ e)]

/-- Terminal state of one invocation (the spec's orchestrator states,
plus `crashed` for an exception the module-level code does not catch:
a truthy non-dict JSON value makes `analysis_result.get` raise
`AttributeError`). -/
inductive Outcome where
  | noFace : Outcome
  | indeterminate : Outcome
  | maskOk : Outcome
  | violationAlertsSkipped : Outcome
  | violationAlertsSent : Outcome
  | crashed : Outcome
deriving DecidableEq

/-- Result of one invocation of the analysis block. -/
structure RunResult where
  events : List Event
  outcome : Outcome

/-- The module-level pipeline of `src/app.py` (the body of
`if st.button("Analyze Image"):`): detect faces; with zero faces warn and
stop; otherwise show the annotated image, call the classifier, and — when
the result is truthy — read `mask_detected` (default `False`) and `reason`
(default `"No reason provided."`) with `dict.get`, display the status and
reason, and when the mask is absent and alerts are enabled, send the email
and then the WhatsApp alert. -/
def runPipeline (inp : PipelineInput) (env : Env) : RunResult :=
  let d := detect_faces inp.image_cv env.detect
  if d.num_faces = 0 then
    ⟨d.events ++
      [Event.warningMsg "No faces were detected in the image. Cannot proceed with mask analysis.",
       Event.showImage d.image_with_boxes "Face Detection Result"],
     Outcome.noFace⟩
  else
    let shown := [Event.showImage d.image_with_boxes
      ("Face Detection Result: " ++ toString d.num_faces ++ " face(s) found!")]
    let a := analyze_image_for_mask inp.image_bytes env.classifier
    match a.result with
    | none => ⟨d.events ++ shown ++ a.events, Outcome.indeterminate⟩
    | some v =>
      if v.truthy then
        match v with
        | .obj kvs =>
          let mask_detected := dictGet kvs "mask_detected" (JsonVal.bool false)
          let reason := dictGet kvs "reason" (JsonVal.str "No reason provided.")
          let statusEv := if mask_detected.truthy then
              Event.statusSuccess "**Status:** Mask Detected"
            else
              Event.statusError "**Status:** No Mask Detected (Violation)"
          let base := d.events ++ shown ++ a.events ++
            [statusEv, Event.infoMsg ("**AI Reason:** " ++ reason.pyStr)]
          if mask_detected.truthy then
            ⟨base, Outcome.maskOk⟩
          else if inp.alerts_enabled then
            ⟨base ++ [Event.warningMsg "Violation detected! Sending alerts..."] ++
              send_alert_email "ALERT: Face Mask Violation Detected!" reason
                inp.image_bytes env.emailOutcome ++
              send_whatsapp_alert
                ("🚨 *ALERT: Face Mask Violation!* 🚨\n\n*Reason:* " ++ reason.pyStr)
                env.whatsappOutcome,
             Outcome.violationAlertsSent⟩
          else
            ⟨base, Outcome.violationAlertsSkipped⟩
        | _ =>
          -- `analysis_result.get` on a truthy non-dict raises AttributeError,
          -- which no handler in the module catches.
          ⟨d.events ++ shown ++ a.events, Outcome.crashed⟩
      else
        ⟨d.events ++ shown ++ a.events, Outcome.indeterminate⟩

/-- Which alert sink a trace event is an invocation of, if any. -/
inductive SinkTag where
  | email : SinkTag
  | whatsapp : SinkTag
deriving DecidableEq

/-- Tag of a sink-invocation event. -/
def sinkTagOf : Event → Option SinkTag
  | .emailSinkCalled _ _ _ => some SinkTag.email
  | .whatsappSinkCalled _ => some SinkTag.whatsapp
  | _ => none

/-- The subsequence of sink invocations in a trace, in order. -/
def sinkCalls (evs : List Event) : List SinkTag :=
  evs.filterMap sinkTagOf

/-- Was the classifier invoked anywhere in a trace? -/
def classifierInvoked (evs : List Event) : Bool :=
  evs.any fun e => match e with
    | .classifierCalled _ => true
    | _ => false

/-- `sub` occurs literally inside `s`. -/
def strContains (s sub : String) : Prop :=
  ∃ a b : String, s = a ++ sub ++ b

/-! ## Concrete sample values -/

/-- Sample raw image bytes. -/
def sampleBytes : Bytes := [1, 2, 3]

/-- Sample decoded pixel grid. -/
def sampleGrid : PixelGrid := [[(10, 20, 30), (40, 50, 60)]]

/-- Sample detected face rectangle. -/
def sampleFace : Rect := ⟨0, 0, 1, 1⟩

/-- Sample invocation input with alerts enabled. -/
def sampleInput : PipelineInput := ⟨sampleBytes, sampleGrid, true⟩

/-- Sample invocation input with alerts disabled. -/
def sampleInputNoAlerts : PipelineInput := ⟨sampleBytes, sampleGrid, false⟩

/-- The classifier verdict of the spec's scenario. -/
def scenarioVerdict : JsonVal := JsonVal.obj
  [("mask_detected", JsonVal.bool false), ("reason", JsonVal.str "visible nose and mouth")]

/-- Environment: one face, scenario verdict, both sinks succeed. -/
def envScenario : Env :=
  ⟨DetectEnv.ok [sampleFace], ClassifierCall.parsed scenarioVerdict, SinkOutcome.ok, SinkOutcome.ok⟩

/-- Environment: one face, mask absent, the email sink raises. -/
def envMaskFalseEmailDown : Env :=
  ⟨DetectEnv.ok [sampleFace],
   ClassifierCall.parsed (JsonVal.obj
     [("mask_detected", JsonVal.bool false), ("reason", JsonVal.str "r")]),
   SinkOutcome.raised "smtp down", SinkOutcome.ok⟩

/-- Environment: the detector reports zero faces. -/
def envZeroFaces : Env :=
  ⟨DetectEnv.ok [], ClassifierCall.parsed scenarioVerdict, SinkOutcome.ok, SinkOutcome.ok⟩

/-- Environment: one face, the classifier call raises. -/
def envClassifierDown : Env :=
  ⟨DetectEnv.ok [sampleFace], ClassifierCall.raised "timeout", SinkOutcome.ok, SinkOutcome.ok⟩

/-- Environment: the cascade asset is missing. -/
def envCascadeMissing : Env :=
  ⟨DetectEnv.cascadeMissing, ClassifierCall.parsed scenarioVerdict, SinkOutcome.ok, SinkOutcome.ok⟩

/-- Environment: one face, parsed JSON object lacking the mask key. -/
def envMissingMaskKey : Env :=
  ⟨DetectEnv.ok [sampleFace],
   ClassifierCall.parsed (JsonVal.obj [("reason", JsonVal.str "r")]),
   SinkOutcome.ok, SinkOutcome.ok⟩

/-- Environment: one face, parsed verdict lacking the reason key. -/
def envMissingReason : Env :=
  ⟨DetectEnv.ok [sampleFace],
   ClassifierCall.parsed (JsonVal.obj [("mask_detected", JsonVal.bool false)]),
   SinkOutcome.ok, SinkOutcome.ok⟩

/-! ## Helper lemmas -/

/-- A key found in an association list means the list is nonempty. -/
theorem lookupLast_some_ne_nil {kvs : List (String × JsonVal)} {k : String} {v : JsonVal}
    (h : lookupLast kvs k = some v) : kvs ≠ [] := by
  intro hk
  subst hk
  simp [lookupLast] at h

/-! ## Claim theorems -/

/-- C2: for every image on which the face detector reports zero faces, the
classifier is never invoked and neither alert sink is invoked; the
invocation terminates in the no-faces outcome. -/
theorem c2_zero_faces_short_circuit (inp : PipelineInput) (env : Env)
    (h : (detect_faces inp.image_cv env.detect).num_faces = 0) :
    (runPipeline inp env).outcome = Outcome.noFace ∧
    classifierInvoked (runPipeline inp env).events = false ∧
    sinkCalls (runPipeline inp env).events = [] := by
  obtain ⟨det, cls, eo, wo⟩ := env
  cases det with
  | ok faces =>
    simp only [detect_faces] at h
    rw [List.length_eq_zero] at h
    subst h
    simp [runPipeline, detect_faces, classifierInvoked, sinkCalls, sinkTagOf, drawRects]
  | cascadeMissing =>
    simp [runPipeline, detect_faces, classifierInvoked, sinkCalls, sinkTagOf]
  | failure m =>
    simp [runPipeline, detect_faces, classifierInvoked, sinkCalls, sinkTagOf]

/-- C2 witness at a concrete zero-face invocation. -/
theorem c2_zero_faces_short_circuit_witness :
    (runPipeline sampleInput envZeroFaces).outcome = Outcome.noFace ∧
    classifierInvoked (runPipeline sampleInput envZeroFaces).events = false ∧
    sinkCalls (runPipeline sampleInput envZeroFaces).events = [] :=
  c2_zero_faces_short_circuit sampleInput envZeroFaces rfl

/-- C7: any failure inside `detect_faces` (missing cascade asset or any
other detection error) is reported via `st.error`, yields a face count of
zero without an escaping exception, and the pipeline then stops at the
no-face outcome without invoking the classifier. -/
theorem c7_detection_failure_contained (inp : PipelineInput) (env : Env)
    (h : env.detect = DetectEnv.cascadeMissing ∨ ∃ m, env.detect = DetectEnv.failure m) :
    (∃ e, (detect_faces inp.image_cv env.detect).events = [Event.errorMsg e]) ∧
    (detect_faces inp.image_cv env.detect).num_faces = 0 ∧
    (runPipeline inp env).outcome = Outcome.noFace ∧
    classifierInvoked (runPipeline inp env).events = false := by
  obtain ⟨det, cls, eo, wo⟩ := env
  rcases h with h | ⟨m, h⟩ <;> subst h <;>
    simp [runPipeline, detect_faces, classifierInvoked, sinkCalls, sinkTagOf]

/-- C7 witness at a concrete missing-cascade invocation. -/
theorem c7_detection_failure_contained_witness :
    (detect_faces sampleInput.image_cv envCascadeMissing.detect).num_faces = 0 ∧
    (runPipeline sampleInput envCascadeMissing).outcome = Outcome.noFace :=
  ⟨(c7_detection_failure_contained sampleInput envCascadeMissing (Or.inl rfl)).2.1,
   (c7_detection_failure_contained sampleInput envCascadeMissing (Or.inl rfl)).2.2.1⟩

/-- C4: when the classifier call raises (transport error or non-JSON
response), `analyze_image_for_mask` returns `None` after reporting the
error, no alert sink is invoked in the whole invocation, and no exception
escapes the pipeline. -/
theorem c4_classifier_failure_contained (inp : PipelineInput) (env : Env) (m : String)
    (h : env.classifier = ClassifierCall.raised m) :
    (analyze_image_for_mask inp.image_bytes env.classifier).result = none ∧
    (analyze_image_for_mask inp.image_bytes env.classifier).events =
      [Event.classifierCalled inp.image_bytes, Event.errorMsg ("Groq API Error: " ++ m)] ∧
    sinkCalls (runPipeline inp env).events = [] ∧
    (runPipeline inp env).outcome ≠ Outcome.crashed := by
  obtain ⟨det, cls, eo, wo⟩ := env
  subst h
  refine ⟨rfl, rfl, ?_⟩
  cases det with
  | ok faces =>
    cases faces with
    | nil => simp [runPipeline, detect_faces, sinkCalls, sinkTagOf, drawRects]
    | cons f fs =>
      simp [runPipeline, detect_faces, analyze_image_for_mask, sinkCalls, sinkTagOf]
  | cascadeMissing => simp [runPipeline, detect_faces, sinkCalls, sinkTagOf]
  | failure e => simp [runPipeline, detect_faces, sinkCalls, sinkTagOf]

/-- C4 witness at a concrete failing-classifier invocation. -/
theorem c4_classifier_failure_contained_witness :
    (analyze_image_for_mask sampleInput.image_bytes envClassifierDown.classifier).result = none ∧
    sinkCalls (runPipeline sampleInput envClassifierDown).events = [] :=
  ⟨(c4_classifier_failure_contained sampleInput envClassifierDown "timeout" rfl).1,
   (c4_classifier_failure_contained sampleInput envClassifierDown "timeout" rfl).2.2.1⟩

/-- C3: with at least one detected face, a present verdict whose
`mask_detected` is `false`, and alerts enabled, the email sink and the
WhatsApp sink are each invoked exactly once, in that order, whatever each
sink's own outcome is — so a failure raised inside one sink never prevents
the invocation of the other. -/
theorem c3_violation_both_sinks (inp : PipelineInput) (env : Env)
    (faces : List Rect) (kvs : List (String × JsonVal))
    (hd : env.detect = DetectEnv.ok faces) (hf : faces ≠ [])
    (hc : env.classifier = ClassifierCall.parsed (JsonVal.obj kvs))
    (hm : lookupLast kvs "mask_detected" = some (JsonVal.bool false))
    (ha : inp.alerts_enabled = true) :
    sinkCalls (runPipeline inp env).events = [SinkTag.email, SinkTag.whatsapp] := by
  obtain ⟨det, cls, eo, wo⟩ := env
  simp only at hd hc
  subst hd
  subst hc
  have hk : kvs ≠ [] := lookupLast_some_ne_nil hm
  cases faces with
  | nil => exact absurd rfl hf
  | cons f fs =>
    cases kvs with
    | nil => exact absurd rfl hk
    | cons kv rest =>
      cases eo <;> cases wo <;>
        simp [runPipeline, detect_faces, analyze_image_for_mask, sinkCalls, sinkTagOf,
          send_alert_email, send_whatsapp_alert, dictGet, hm, JsonVal.truthy, ha]

/-- C3 witness: a concrete violation run in which the email sink raises
and the WhatsApp sink is still invoked after it. -/
theorem c3_violation_both_sinks_witness :
    sinkCalls (runPipeline sampleInput envMaskFalseEmailDown).events =
      [SinkTag.email, SinkTag.whatsapp] :=
  c3_violation_both_sinks sampleInput envMaskFalseEmailDown [sampleFace]
    [("mask_detected", JsonVal.bool false), ("reason", JsonVal.str "r")]
    rfl (by simp) rfl (by simp [lookupLast]) rfl

/-- C5: with at least one detected face and a `mask_detected = false`
verdict, if alerts are disabled then neither sink is invoked, yet the
reported decision is still the violation status, not mask-ok. -/
theorem c5_alerts_disabled_still_violation (inp : PipelineInput) (env : Env)
    (faces : List Rect) (kvs : List (String × JsonVal))
    (hd : env.detect = DetectEnv.ok faces) (hf : faces ≠ [])
    (hc : env.classifier = ClassifierCall.parsed (JsonVal.obj kvs))
    (hm : lookupLast kvs "mask_detected" = some (JsonVal.bool false))
    (ha : inp.alerts_enabled = false) :
    sinkCalls (runPipeline inp env).events = [] ∧
    (runPipeline inp env).outcome = Outcome.violationAlertsSkipped ∧
    Event.statusError "**Status:** No Mask Detected (Violation)" ∈
      (runPipeline inp env).events := by
  obtain ⟨det, cls, eo, wo⟩ := env
  simp only at hd hc
  subst hd
  subst hc
  have hk : kvs ≠ [] := lookupLast_some_ne_nil hm
  cases faces with
  | nil => exact absurd rfl hf
  | cons f fs =>
    cases kvs with
    | nil => exact absurd rfl hk
    | cons kv rest =>
      simp [runPipeline, detect_faces, analyze_image_for_mask, sinkCalls, sinkTagOf,
        dictGet, hm, JsonVal.truthy, ha]

/-- C5 witness: the scenario verdict with alerts disabled. -/
theorem c5_alerts_disabled_still_violation_witness :
    sinkCalls (runPipeline sampleInputNoAlerts envScenario).events = [] ∧
    (runPipeline sampleInputNoAlerts envScenario).outcome = Outcome.violationAlertsSkipped :=
  ⟨(c5_alerts_disabled_still_violation sampleInputNoAlerts envScenario [sampleFace]
      [("mask_detected", JsonVal.bool false), ("reason", JsonVal.str "visible nose and mouth")]
      rfl (by simp) rfl (by simp [lookupLast]) rfl).1,
   (c5_alerts_disabled_still_violation sampleInputNoAlerts envScenario [sampleFace]
      [("mask_detected", JsonVal.bool false), ("reason", JsonVal.str "visible nose and mouth")]
      rfl (by simp) rfl (by simp [lookupLast]) rfl).2.1⟩

/-- C9: in every invocation the sink-invocation subsequence of the trace is
either empty or exactly email followed by WhatsApp: whenever alerts are
dispatched, the email sink call precedes the messaging sink call, and the
order is fixed and deterministic. -/
theorem c9_email_before_whatsapp (inp : PipelineInput) (env : Env) :
    sinkCalls (runPipeline inp env).events = [] ∨
    sinkCalls (runPipeline inp env).events = [SinkTag.email, SinkTag.whatsapp] := by
  obtain ⟨det, cls, eo, wo⟩ := env
  cases det with
  | cascadeMissing =>
    left; simp [runPipeline, detect_faces, sinkCalls, sinkTagOf]
  | failure m =>
    left; simp [runPipeline, detect_faces, sinkCalls, sinkTagOf]
  | ok faces =>
    cases faces with
    | nil => left; simp [runPipeline, detect_faces, sinkCalls, sinkTagOf]
    | cons f fs =>
      cases cls with
      | raised m =>
        left
        simp [runPipeline, detect_faces, analyze_image_for_mask, sinkCalls, sinkTagOf]
      | parsed v =>
        cases v with
        | obj kvs =>
          cases kvs with
          | nil =>
            left
            simp [runPipeline, detect_faces, analyze_image_for_mask, sinkCalls, sinkTagOf,
              JsonVal.truthy]
          | cons kv rest =>
            have hobj : (JsonVal.obj (kv :: rest)).truthy = true := by
              simp [JsonVal.truthy]
            cases hmt : (dictGet (kv :: rest) "mask_detected" (JsonVal.bool false)).truthy with
            | true =>
              left
              simp [runPipeline, detect_faces, analyze_image_for_mask, sinkCalls, sinkTagOf,
                hobj, hmt]
            | false =>
              by_cases ha : inp.alerts_enabled
              · right
                cases eo <;> cases wo <;>
                  simp [runPipeline, detect_faces, analyze_image_for_mask, sinkCalls,
                    sinkTagOf, send_alert_email, send_whatsapp_alert, hobj, hmt, ha]
              · left
                simp [runPipeline, detect_faces, analyze_image_for_mask, sinkCalls, sinkTagOf,
                  hobj, hmt, ha]
        | null =>
          left
          simp [runPipeline, detect_faces, analyze_image_for_mask, sinkCalls, sinkTagOf,
            JsonVal.truthy]
        | bool b =>
          left
          cases b <;>
            simp [runPipeline, detect_faces, analyze_image_for_mask, sinkCalls, sinkTagOf,
              JsonVal.truthy]
        | num n =>
          left
          by_cases hn : (JsonVal.num n).truthy <;>
            simp [runPipeline, detect_faces, analyze_image_for_mask, sinkCalls, sinkTagOf, hn]
        | str s =>
          left
          by_cases hs : (JsonVal.str s).truthy <;>
            simp [runPipeline, detect_faces, analyze_image_for_mask, sinkCalls, sinkTagOf, hs]
        | arr xs =>
          left
          by_cases hx : (JsonVal.arr xs).truthy <;>
            simp [runPipeline, detect_faces, analyze_image_for_mask, sinkCalls, sinkTagOf, hx]

/-- C1 counterexample: one detected face, alerts enabled, and a classifier
response that parses as a JSON object lacking the `mask_detected` key.
`analyze_image_for_mask` does not return a null verdict — it returns the
parsed object — and the pipeline does not stop: both alert sinks are
invoked, a violation synthesized from the defaulted indicator. -/
theorem c1_missing_key_counterexample :
    (analyze_image_for_mask sampleBytes envMissingMaskKey.classifier).result ≠ none ∧
    sinkCalls (runPipeline sampleInput envMissingMaskKey).events =
      [SinkTag.email, SinkTag.whatsapp] := by
  constructor
  · intro h
    simp [envMissingMaskKey, analyze_image_for_mask] at h
  · rfl

/-- C1 (amended): when the classifier response parses as a JSON object
lacking the `mask_detected` key, `analyze_image_for_mask` returns the
parsed object, not a null verdict; the orchestrator then reads the
indicator with a default of `False`, so for a non-empty such object with
at least one detected face and alerts enabled, the invocation is treated
as a violation and both alert sinks are invoked.  (Only a raised
classifier call, a non-JSON response, or a falsy parsed value stops the
pipeline without an alert.) -/
theorem c1_missing_key_defaults_to_violation (inp : PipelineInput) (env : Env)
    (faces : List Rect) (kvs : List (String × JsonVal))
    (hd : env.detect = DetectEnv.ok faces) (hf : faces ≠ [])
    (hc : env.classifier = ClassifierCall.parsed (JsonVal.obj kvs))
    (hm : lookupLast kvs "mask_detected" = none) (hk : kvs ≠ [])
    (ha : inp.alerts_enabled = true) :
    (analyze_image_for_mask inp.image_bytes env.classifier).result =
      some (JsonVal.obj kvs) ∧
    (runPipeline inp env).outcome = Outcome.violationAlertsSent ∧
    sinkCalls (runPipeline inp env).events = [SinkTag.email, SinkTag.whatsapp] := by
  obtain ⟨det, cls, eo, wo⟩ := env
  simp only at hd hc
  subst hd
  subst hc
  refine ⟨rfl, ?_, ?_⟩ <;>
  · cases faces with
    | nil => exact absurd rfl hf
    | cons f fs =>
      cases kvs with
      | nil => exact absurd rfl hk
      | cons kv rest =>
        cases eo <;> cases wo <;>
          simp [runPipeline, detect_faces, analyze_image_for_mask, sinkCalls, sinkTagOf,
            send_alert_email, send_whatsapp_alert, dictGet, hm, JsonVal.truthy, ha]

/-- C1 witness for the amended claim, at the counterexample's input. -/
theorem c1_missing_key_defaults_to_violation_witness :
    (runPipeline sampleInput envMissingMaskKey).outcome = Outcome.violationAlertsSent ∧
    sinkCalls (runPipeline sampleInput envMissingMaskKey).events =
      [SinkTag.email, SinkTag.whatsapp] :=
  ⟨(c1_missing_key_defaults_to_violation sampleInput envMissingMaskKey [sampleFace]
      [("reason", JsonVal.str "r")] rfl (by simp) rfl (by simp [lookupLast]) (by simp) rfl).2.1,
   (c1_missing_key_defaults_to_violation sampleInput envMissingMaskKey [sampleFace]
      [("reason", JsonVal.str "r")] rfl (by simp) rfl (by simp [lookupLast]) (by simp) rfl).2.2⟩

/-- C6: in the scenario with detected faces, the verdict
`mask_detected = false, reason = "visible nose and mouth"`, and alerts
enabled, both sinks are invoked once each, the email subject references
"Mask Violation" and its body is the literal reason, the WhatsApp body
references "Mask Violation" and contains the literal reason, and the
invocation ends in the alerts-sent outcome. -/
theorem c6_scenario_alert_contents (inp : PipelineInput) (env : Env) (faces : List Rect)
    (hd : env.detect = DetectEnv.ok faces) (hf : faces ≠ [])
    (hc : env.classifier = ClassifierCall.parsed scenarioVerdict)
    (ha : inp.alerts_enabled = true) :
    (runPipeline inp env).outcome = Outcome.violationAlertsSent ∧
    sinkCalls (runPipeline inp env).events = [SinkTag.email, SinkTag.whatsapp] ∧
    Event.emailSinkCalled "ALERT: Face Mask Violation Detected!"
        (JsonVal.str "visible nose and mouth") inp.image_bytes ∈
      (runPipeline inp env).events ∧
    Event.whatsappSinkCalled
        "🚨 *ALERT: Face Mask Violation!* 🚨\n\n*Reason:* visible nose and mouth" ∈
      (runPipeline inp env).events ∧
    strContains "ALERT: Face Mask Violation Detected!" "Mask Violation" ∧
    strContains "🚨 *ALERT: Face Mask Violation!* 🚨\n\n*Reason:* visible nose and mouth"
      "Mask Violation" ∧
    strContains "🚨 *ALERT: Face Mask Violation!* 🚨\n\n*Reason:* visible nose and mouth"
      "visible nose and mouth" := by
  obtain ⟨det, cls, eo, wo⟩ := env
  simp only at hd hc
  subst hd
  subst hc
  cases faces with
  | nil => exact absurd rfl hf
  | cons f fs =>
    refine ⟨?_, ?_, ?_, ?_, ⟨"ALERT: Face ", " Detected!", by decide⟩,
      ⟨"🚨 *ALERT: Face ", "!* 🚨\n\n*Reason:* visible nose and mouth", by decide⟩,
      ⟨"🚨 *ALERT: Face Mask Violation!* 🚨\n\n*Reason:* ", "", by decide⟩⟩ <;>
      cases eo <;> cases wo <;>
        simp [runPipeline, detect_faces, analyze_image_for_mask, sinkCalls, sinkTagOf,
          send_alert_email, send_whatsapp_alert, scenarioVerdict, dictGet, lookupLast,
          JsonVal.truthy, JsonVal.pyStr, ha]

/-- C6 witness at the concrete scenario input. -/
theorem c6_scenario_alert_contents_witness :
    (runPipeline sampleInput envScenario).outcome = Outcome.violationAlertsSent ∧
    sinkCalls (runPipeline sampleInput envScenario).events =
      [SinkTag.email, SinkTag.whatsapp] :=
  ⟨(c6_scenario_alert_contents sampleInput envScenario [sampleFace]
      rfl (by simp) rfl rfl).1,
   (c6_scenario_alert_contents sampleInput envScenario [sampleFace]
      rfl (by simp) rfl rfl).2.1⟩


/-- C8: `detect_faces` never mutates its input — the caller's buffer is
unchanged after the call and the annotated output is the rectangles drawn
on a copy of the input grid — and throughout every invocation the bytes
handed to the classifier and attached to the alert email are exactly the
acquisition bytes `inp.image_bytes`, never the annotated image. -/
theorem c8_original_bytes_unmodified (inp : PipelineInput) (env : Env) :
    (detect_faces inp.image_cv env.detect).buffer = inp.image_cv ∧
    (∀ faces, env.detect = DetectEnv.ok faces →
      (detect_faces inp.image_cv env.detect).image_with_boxes =
        drawRects inp.image_cv faces) ∧
    ((∀ b, Event.classifierCalled b ∈ (runPipeline inp env).events →
        b = inp.image_bytes) ∧
     (∀ subj r b, Event.emailSinkCalled subj r b ∈ (runPipeline inp env).events →
        b = inp.image_bytes)) := by
  obtain ⟨det, cls, eo, wo⟩ := env
  refine ⟨by cases det <;> rfl, ?_, ?_⟩
  · intro faces hfe
    simp only at hfe
    subst hfe
    rfl
  · cases det with
    | cascadeMissing =>
      refine ⟨fun b hb => ?_, fun subj r b hb => ?_⟩ <;>
        ((simp [runPipeline, detect_faces] at hb) <;>
          first | exact hb | exact hb.symm | exact hb.2.2)
    | failure m =>
      refine ⟨fun b hb => ?_, fun subj r b hb => ?_⟩ <;>
        ((simp [runPipeline, detect_faces] at hb) <;>
          first | exact hb | exact hb.symm | exact hb.2.2)
    | ok faces =>
      cases faces with
      | nil =>
        refine ⟨fun b hb => ?_, fun subj r b hb => ?_⟩ <;>
          ((simp [runPipeline, detect_faces] at hb) <;>
            first | exact hb | exact hb.symm | exact hb.2.2)
      | cons f fs =>
        cases cls with
        | raised m =>
          refine ⟨fun b hb => ?_, fun subj r b hb => ?_⟩ <;>
            ((simp [runPipeline, detect_faces, analyze_image_for_mask] at hb) <;>
              first | exact hb | exact hb.symm | exact hb.2.2)
        | parsed v =>
          cases v with
          | obj kvs =>
            cases kvs with
            | nil =>
              refine ⟨fun b hb => ?_, fun subj r b hb => ?_⟩ <;>
                ((simp [runPipeline, detect_faces, analyze_image_for_mask,
                    JsonVal.truthy] at hb) <;>
                  first | exact hb | exact hb.symm | exact hb.2.2)
            | cons kv rest =>
              have hobj : (JsonVal.obj (kv :: rest)).truthy = true := by
                simp [JsonVal.truthy]
              cases hmt : (dictGet (kv :: rest) "mask_detected" (JsonVal.bool false)).truthy with
              | true =>
                refine ⟨fun b hb => ?_, fun subj r b hb => ?_⟩ <;>
                  ((simp [runPipeline, detect_faces, analyze_image_for_mask,
                      hobj, hmt] at hb) <;>
                    first | exact hb | exact hb.symm | exact hb.2.2)
              | false =>
                by_cases ha : inp.alerts_enabled
                · cases eo <;> cases wo <;>
                    (refine ⟨fun b hb => ?_, fun subj r b hb => ?_⟩ <;>
                      ((simp [runPipeline, detect_faces, analyze_image_for_mask,
                          send_alert_email, send_whatsapp_alert, hobj, hmt, ha] at hb) <;>
                        first | exact hb | exact hb.symm | exact hb.2.2))
                · refine ⟨fun b hb => ?_, fun subj r b hb => ?_⟩ <;>
                    ((simp [runPipeline, detect_faces, analyze_image_for_mask,
                        hobj, hmt, ha] at hb) <;>
                      first | exact hb | exact hb.symm | exact hb.2.2)
          | null =>
            refine ⟨fun b hb => ?_, fun subj r b hb => ?_⟩ <;>
              ((simp [runPipeline, detect_faces, analyze_image_for_mask,
                  JsonVal.truthy, apply_ite] at hb) <;>
                first | exact hb | exact hb.symm | exact hb.2.2)
          | bool b2 =>
            refine ⟨fun b hb => ?_, fun subj r b hb => ?_⟩ <;>
              ((simp [runPipeline, detect_faces, analyze_image_for_mask,
                  JsonVal.truthy, apply_ite] at hb) <;>
                first | exact hb | exact hb.symm | exact hb.2.2)
          | num n =>
            refine ⟨fun b hb => ?_, fun subj r b hb => ?_⟩ <;>
              ((simp [runPipeline, detect_faces, analyze_image_for_mask,
                  JsonVal.truthy, apply_ite] at hb) <;>
                first | exact hb | exact hb.symm | exact hb.2.2)
          | str s =>
            refine ⟨fun b hb => ?_, fun subj r b hb => ?_⟩ <;>
              ((simp [runPipeline, detect_faces, analyze_image_for_mask,
                  JsonVal.truthy, apply_ite] at hb) <;>
                first | exact hb | exact hb.symm | exact hb.2.2)
          | arr xs =>
            refine ⟨fun b hb => ?_, fun subj r b hb => ?_⟩ <;>
              ((simp [runPipeline, detect_faces, analyze_image_for_mask,
                  JsonVal.truthy, apply_ite] at hb) <;>
                first | exact hb | exact hb.symm | exact hb.2.2)

/-- C8 witness: the annotated image of a concrete successful detection is
the rectangles drawn on the input grid. -/
theorem c8_original_bytes_unmodified_witness :
    (detect_faces sampleInput.image_cv envScenario.detect).image_with_boxes =
      drawRects sampleInput.image_cv [sampleFace] :=
  (c8_original_bytes_unmodified sampleInput envScenario).2.1 [sampleFace] rfl

/-- C10: when the parsed verdict object lacks the `"reason"` key, the
`reason` value is the literal default `"No reason provided."`, and every
downstream use of it — the operator display line, the email body, and the
WhatsApp body — receives that default instead of failing. -/
theorem c10_missing_reason_defaults (inp : PipelineInput) (env : Env)
    (kvs : List (String × JsonVal))
    (hc : env.classifier = ClassifierCall.parsed (JsonVal.obj kvs))
    (hr : lookupLast kvs "reason" = none) :
    dictGet kvs "reason" (JsonVal.str "No reason provided.") =
      JsonVal.str "No reason provided." ∧
    ((∀ s, Event.infoMsg s ∈ (runPipeline inp env).events →
        s = "**AI Reason:** No reason provided.") ∧
     (∀ subj r b, Event.emailSinkCalled subj r b ∈ (runPipeline inp env).events →
        r = JsonVal.str "No reason provided.") ∧
     (∀ s, Event.whatsappSinkCalled s ∈ (runPipeline inp env).events →
        s = "🚨 *ALERT: Face Mask Violation!* 🚨\n\n*Reason:* No reason provided.")) := by
  obtain ⟨det, cls, eo, wo⟩ := env
  simp only at hc
  subst hc
  refine ⟨by simp [dictGet, hr], ?_⟩
  cases det with
  | cascadeMissing =>
    refine ⟨fun s hb => ?_, fun subj r b hb => ?_, fun s hb => ?_⟩ <;>
      simp [runPipeline, detect_faces] at hb
  | failure m =>
    refine ⟨fun s hb => ?_, fun subj r b hb => ?_, fun s hb => ?_⟩ <;>
      simp [runPipeline, detect_faces] at hb
  | ok faces =>
    cases faces with
    | nil =>
      refine ⟨fun s hb => ?_, fun subj r b hb => ?_, fun s hb => ?_⟩ <;>
        simp [runPipeline, detect_faces] at hb
    | cons f fs =>
      cases kvs with
      | nil =>
        refine ⟨fun s hb => ?_, fun subj r b hb => ?_, fun s hb => ?_⟩ <;>
          simp [runPipeline, detect_faces, analyze_image_for_mask, JsonVal.truthy] at hb
      | cons kv rest =>
        have hobj : (JsonVal.obj (kv :: rest)).truthy = true := by
          simp [JsonVal.truthy]
        have hrd : dictGet (kv :: rest) "reason" (JsonVal.str "No reason provided.") =
            JsonVal.str "No reason provided." := by
          simp [dictGet, hr]
        cases hmt : (dictGet (kv :: rest) "mask_detected" (JsonVal.bool false)).truthy with
        | true =>
          refine ⟨fun s hb => ?_, fun subj r b hb => ?_, fun s hb => ?_⟩ <;>
            ((simp [runPipeline, detect_faces, analyze_image_for_mask, hrd,
                JsonVal.pyStr, hobj, hmt] at hb) <;>
              first | exact hb | exact hb.symm | exact hb.2.2)
        | false =>
          by_cases ha : inp.alerts_enabled
          · cases eo <;> cases wo <;>
              (refine ⟨fun s hb => ?_, fun subj r b hb => ?_, fun s hb => ?_⟩ <;>
                ((simp [runPipeline, detect_faces, analyze_image_for_mask,
                    send_alert_email, send_whatsapp_alert, hrd,
                    JsonVal.pyStr, hobj, hmt, ha] at hb) <;>
                  first | exact hb | exact hb.symm | exact hb.2.1 | exact hb.2.2))
          · refine ⟨fun s hb => ?_, fun subj r b hb => ?_, fun s hb => ?_⟩ <;>
              ((simp [runPipeline, detect_faces, analyze_image_for_mask, hrd,
                  JsonVal.pyStr, hobj, hmt, ha] at hb) <;>
                first | exact hb | exact hb.symm | exact hb.2.2)

/-- C10 witness: a concrete verdict lacking the reason key yields the
default reason value. -/
theorem c10_missing_reason_defaults_witness :
    dictGet [("mask_detected", JsonVal.bool false)] "reason"
      (JsonVal.str "No reason provided.") = JsonVal.str "No reason provided." :=
  (c10_missing_reason_defaults sampleInput envMissingReason
    [("mask_detected", JsonVal.bool false)] rfl (by simp [lookupLast])).1
